import Mathlib

/-!
# Verification of the error-classification and duration-flag utilities

Shallow embedding of the two source files of `salesforcecli/plugin-project-utils`:

* the error classifier (`computeErrorCode`, `errorIsGack`, `errorIsTypeError`,
  `errorToSfCommandError`), and
* the duration-flag validator (`validate`, the `default` callback of `durationFlag`,
  here `defaultFor`).

JavaScript strings are modelled as `List Char`; JavaScript field values that may be
absent, numeric, or present-but-non-numeric are modelled by `JSField`; the ambient
`process.exitCode` is passed explicitly as a `JSField` parameter.
-/

namespace ProjectUtils

/-- A JavaScript object field that may be absent, hold a number, or hold a
present value of another type (`typeof x === 'number'` is false). -/
inductive JSField : Type where
  | absent : JSField
  | num : Int → JSField
  | other : JSField
deriving DecidableEq, Repr

/-- `typeof f === 'number'` for a modelled field. -/
def JSField.isNum : JSField → Bool
  | .num _ => true
  | _ => false

/-- `'f' in e` for a modelled field. -/
def JSField.isPresent : JSField → Bool
  | .absent => false
  | _ => true

/-- The numeric value of a field, or a fallback. -/
def JSField.numOr (d : Int) : JSField → Int
  | .num n => n
  | _ => d

/-! ## Strings: substring search and the gack regex

The gack regex from the source is `/\d{9,}-\d{3,} \(-?\d{7,}\)/`, applied with
`RegExp.test` (match anywhere in the string).  Because each bounded-repetition
digit class is immediately followed by a non-digit literal, backtracking never
changes the outcome, so a deterministic longest-run scanner is an exact model. -/

/-- Split a character list into its maximal leading digit run (counted) and the rest. -/
def splitDigits : List Char → Nat × List Char
  | [] => (0, [])
  | c :: cs =>
    if c.isDigit then
      let p := splitDigits cs
      (p.1 + 1, p.2)
    else (0, c :: cs)

/-- Try to match the gack pattern starting exactly at the head of the list:
at least 9 digits, `-`, at least 3 digits, `\x20(`, an optional `-`,
at least 7 digits, `)`. -/
def gackMatchAt (l : List Char) : Bool :=
  let p1 := splitDigits l
  if p1.1 < 9 then false
  else
    match p1.2 with
    | '-' :: r2 =>
      let p2 := splitDigits r2
      if p2.1 < 3 then false
      else
        match p2.2 with
        | ' ' :: '(' :: r4 =>
          let r5 := match r4 with
            | '-' :: t => t
            | _ => r4
          let p3 := splitDigits r5
          if p3.1 < 7 then false
          else
            match p3.2 with
            | ')' :: _ => true
            | _ => false
        | _ => false
    | _ => false

/-- `gackRegex.test s`: the gack pattern matches somewhere in `s`. -/
def gackTest : List Char → Bool
  | [] => false
  | c :: t => gackMatchAt (c :: t) || gackTest t

/-- `needle` is a prefix of `hay` (character-wise). -/
def startsWithCh : List Char → List Char → Bool
  | [], _ => true
  | _ :: _, [] => false
  | a :: as, b :: bs => a == b && startsWithCh as bs

/-- `hay.includes(needle)`: `needle` occurs contiguously in `hay`. -/
def containsSub (needle : List Char) : List Char → Bool
  | [] => startsWithCh needle []
  | c :: t => startsWithCh needle (c :: t) || containsSub needle t

/-- The characters of the string `"TypeError"`. -/
def typeErrorChars : List Char := "TypeError".data

/-! ## The error model

`ErrorBase` collects the own fields of an error-like object that the classifier
reads; `ErrorLike` adds the optional `cause` link (present-and-`instanceof Error`
causes only: a missing cause and a non-`Error` cause behave identically in the
source, which guards every recursion with `error.cause instanceof Error`). -/

structure ErrorBase : Type where
  /-- `e.message`, always a string. -/
  message : List Char
  /-- `e.stack` when it is a string, `none` when absent or not a string. -/
  stack : Option (List Char)
  /-- `e.name` when present, `none` when absent (`??`-handled in the report). -/
  name : Option (List Char)
  /-- whether `e instanceof TypeError` holds at runtime. -/
  isTypeErrorInstance : Bool
  /-- `'oclif' in e`. -/
  oclifPresent : Bool
  /-- `e.oclif.exit` (only meaningful when `oclifPresent`). -/
  oclifExit : JSField
  /-- `e.exitCode`. -/
  exitCode : JSField
  /-- `e.code`. -/
  code : JSField
  /-- `e.actions` when present and non-nullish. -/
  actions : Option (List (List Char))
  /-- `e.context` when present and non-nullish. -/
  context : Option (List Char)
  /-- `e.commandName` when present and non-nullish. -/
  commandName : Option (List Char)
  /-- `e.data` when present and non-nullish (payload modelled opaquely). -/
  data : Option (List Char)
  /-- `e.result` when present and non-nullish (payload modelled opaquely). -/
  result : Option (List Char)
deriving DecidableEq, Repr

/-- An error-like object: own fields plus an optional `cause` chain. -/
inductive ErrorLike : Type where
  | noCause (b : ErrorBase) : ErrorLike
  | withCause (b : ErrorBase) (c : ErrorLike) : ErrorLike
deriving DecidableEq, Repr

/-- The own fields of an error. -/
def ErrorLike.base : ErrorLike → ErrorBase
  | .noCause b => b
  | .withCause b _ => b

/-- The `cause` link (present and `instanceof Error`). -/
def ErrorLike.cause : ErrorLike → Option ErrorLike
  | .noCause _ => none
  | .withCause _ c => some c

/-- Follow the cause chain `n` steps. -/
def nthCause : ErrorLike → Nat → Option ErrorLike
  | e, 0 => some e
  | .noCause _, _ + 1 => none
  | .withCause _ c, n + 1 => nthCause c n

/-- Length of the cause chain below an error. -/
def causeDepth : ErrorLike → Nat
  | .noCause _ => 0
  | .withCause _ c => causeDepth c + 1

/-! ## The classifier (`src/unnamed/part_000`) -/

/-- The non-recursive part of `errorIsGack`:
`gackRegex.test(error.message) || (typeof error.stack === 'string' && gackRegex.test(error.stack))`. -/
def gackBase (b : ErrorBase) : Bool :=
  gackTest b.message ||
    (match b.stack with
     | some s => gackTest s
     | none => false)

/-- `errorIsGack`: gack in message or stack, or recursively in the cause chain. -/
def errorIsGack : ErrorLike → Bool
  | .noCause b => gackBase b
  | .withCause b c => gackBase b || errorIsGack c

/-- The non-recursive part of `errorIsTypeError`:
`error instanceof TypeError || error.name === 'TypeError' ||
 error.message.includes('TypeError') || Boolean(error.stack?.includes('TypeError'))`. -/
def typeErrorBase (b : ErrorBase) : Bool :=
  b.isTypeErrorInstance ||
    (match b.name with
     | some n => n == typeErrorChars
     | none => false) ||
    containsSub typeErrorChars b.message ||
    (match b.stack with
     | some s => containsSub typeErrorChars s
     | none => false)

/-- `errorIsTypeError`: TypeError evidence on the error itself, or recursively
in the cause chain. -/
def errorIsTypeError : ErrorLike → Bool
  | .noCause b => typeErrorBase b
  | .withCause b c => typeErrorBase b || errorIsTypeError c

/-- The tail of `computeErrorCode` after the gack and TypeError checks:
oclif exit, then `exitCode`, then `code` (non-numeric forces 1), then the
process exit code, then 1. -/
def fallbackCode (oclifPresent : Bool) (oclifExit exitCode code processExitCode : JSField) :
    Int :=
  match oclifPresent, oclifExit with
  | true, JSField.num n => n
  | _, _ =>
    match exitCode with
    | JSField.num n => n
    | _ =>
      match code with
      | JSField.num n => n
      | JSField.other => 1
      | JSField.absent =>
        match processExitCode with
        | JSField.num n => n
        | _ => 1

/-- `computeErrorCode`: gack → 20; TypeError → 10; then the fallback chain.
The ambient `process.exitCode` is the explicit first parameter. -/
def computeErrorCode (processExitCode : JSField) (e : ErrorLike) : Int :=
  if errorIsGack e then 20
  else if errorIsTypeError e then 10
  else fallbackCode e.base.oclifPresent e.base.oclifExit e.base.exitCode e.base.code
    processExitCode

/-! ## The structured report (`errorToSfCommandError`)

The helper `removeEmpty` lives in `src/util.ts`, which is not part of the
sources here; per the specification it is a remove-empty projection: fields
whose source value is absent/empty (nullish) are omitted from the record.
With `Option`-valued fields, omission is `none`. -/

/-- The `SfCommandError` record produced by `errorToSfCommandError`.  Fields
subject to the remove-empty projection are `Option`-valued (`none` = omitted);
the fields of the second object spread are always present. -/
structure SfCommandError : Type where
  code : Option Int
  actions : Option (List (List Char))
  context : Option (List Char)
  commandName : Option (List Char)
  data : Option (List Char)
  result : Option (List Char)
  message : List Char
  name : List Char
  status : Int
  stack : Option (List Char)
  exitCode : Int
deriving DecidableEq, Repr

/-- `errorToSfCommandError(codeFromError, error, commandName)`.

Modelled from the spec: `removeEmpty` (defined in `src/util.ts`, absent from
the provided sources) drops nullish fields; here the `'f' in error ? error.f : null`
sources become the `Option` fields directly, and the `?? commandName` fallbacks
become `Option.getD`.  `code` is a number, hence never removed. -/
def errorToSfCommandError (codeFromError : Int) (error : ErrorLike)
    (commandName : List Char) : SfCommandError where
  code := some codeFromError
  actions := error.base.actions
  context := some ((error.base.context).getD commandName)
  commandName := some ((error.base.commandName).getD commandName)
  data := error.base.data
  result := error.base.result
  message := error.base.message
  name := (error.base.name).getD "Error".data
  status := codeFromError
  stack := error.base.stack
  exitCode := codeFromError

/-! ## The duration flag (`src/src/flags/duration.ts`) -/

/-- `Lowercase<keyof typeof Duration.Unit>` from `@salesforce/kit`. -/
inductive DurationUnit : Type where
  | milliseconds | seconds | minutes | hours | days | weeks
deriving DecidableEq, Repr

/-- A `Duration` value: a quantity in a unit, built by `Duration[unit](n)`. -/
structure Duration : Type where
  quantity : Int
  unit : DurationUnit
deriving DecidableEq, Repr

/-- `DurationFlagConfig`. -/
structure DurationFlagConfig : Type where
  unit : DurationUnit
  defaultValue : Option Int := none
  min : Option Int := none
  max : Option Int := none
deriving DecidableEq, Repr

/-- The two errors `validate` can throw, keyed by the message catalog. -/
inductive DurationError : Type where
  | InvalidDuration : DurationError
  | DurationBounds (min max : Option Int) : DurationError
deriving DecidableEq, Repr

instance : DecidableEq (Except DurationError Duration)
  | Except.error a, Except.error b =>
    if h : a = b then .isTrue (congrArg Except.error h)
    else .isFalse fun hh => h (Except.error.inj hh)
  | Except.error _, Except.ok _ => .isFalse Except.noConfusion
  | Except.ok _, Except.error _ => .isFalse Except.noConfusion
  | Except.ok a, Except.ok b =>
    if h : a = b then .isTrue (congrArg Except.ok h)
    else .isFalse fun hh => h (Except.ok.inj hh)

/-- JavaScript whitespace skipped by `parseInt`. -/
def isJsSpace (c : Char) : Bool :=
  c == ' ' || c == '\t' || c == '\n' || c == '\r'

/-- The numeric value of a digit run. -/
def digitsToNat (ds : List Char) : Nat :=
  ds.foldl (fun acc c => acc * 10 + (c.toNat - '0'.toNat)) 0

/-- The maximal leading digit run as a number, or `none` when there is no digit. -/
def parseDigits (s : List Char) : Option Nat :=
  let ds := s.takeWhile Char.isDigit
  if ds.isEmpty then none else some (digitsToNat ds)

/-- `parseInt(input, 10)`: skip leading whitespace, optional sign, then the
maximal leading digit run; `none` models `NaN` (no digit found). -/
def parseIntBase10 (s : List Char) : Option Int :=
  let s1 := s.dropWhile isJsSpace
  match s1 with
  | '-' :: rest => (parseDigits rest).map (fun n => -(n : Int))
  | '+' :: rest => (parseDigits rest).map (fun n => (n : Int))
  | _ => (parseDigits s1).map (fun n => (n : Int))

/-- `toDuration(parsedInput, unit)` = `Duration[unit](parsedInput)`. -/
def toDuration (parsedInput : Int) (unit : DurationUnit) : Duration :=
  { quantity := parsedInput, unit := unit }

/-- `if (min && parsedInput < min)`: the min bound is violated (a bound of 0 is
falsy and never fires). -/
def minViolated (min : Option Int) (v : Int) : Bool :=
  match min with
  | some m => m != 0 && v < m
  | none => false

/-- `if (max && parsedInput > max)`: the max bound is violated (a bound of 0 is
falsy and never fires). -/
def maxViolated (max : Option Int) (v : Int) : Bool :=
  match max with
  | some m => m != 0 && v > m
  | none => false

/-- `validate(input, config)`: parse, bounds-check, build the duration.
(The `try/catch` around `parseInt` is dead code: `parseInt` never throws;
both paths yield `InvalidDuration`.) -/
def validate (input : List Char) (config : DurationFlagConfig) :
    Except DurationError Duration :=
  match parseIntBase10 input with
  | none => Except.error DurationError.InvalidDuration
  | some parsedInput =>
    if minViolated config.min parsedInput then
      Except.error (DurationError.DurationBounds config.min config.max)
    else if maxViolated config.max parsedInput then
      Except.error (DurationError.DurationBounds config.min config.max)
    else Except.ok (toDuration parsedInput config.unit)

/-- The `default` callback of `durationFlag`:
`context.options.defaultValue ? toDuration(defaultValue, unit) : undefined`.
The ternary tests truthiness, so a `defaultValue` of `0` yields `undefined`. -/
def defaultFor (config : DurationFlagConfig) : Option Duration :=
  match config.defaultValue with
  | some d => if d != 0 then some (toDuration d config.unit) else none
  | none => none

/-! ## Fuelled recursions

Fuel-indexed versions of the two recursive predicates, used to show that the
recursion terminates on every (finite, acyclic by construction) cause chain
with recursion depth bounded by the chain length — the source has no cycle
guard and no depth bound beyond the chain itself. -/

/-- `errorIsGack` with an explicit recursion-depth budget; `none` = budget
exhausted before the recursion finished. -/
def errorIsGackFuel : Nat → ErrorLike → Option Bool
  | 0, _ => none
  | _ + 1, .noCause b => some (gackBase b)
  | n + 1, .withCause b c =>
    if gackBase b then some true else errorIsGackFuel n c

/-- `errorIsTypeError` with an explicit recursion-depth budget. -/
def errorIsTypeErrorFuel : Nat → ErrorLike → Option Bool
  | 0, _ => none
  | _ + 1, .noCause b => some (typeErrorBase b)
  | n + 1, .withCause b c =>
    if typeErrorBase b then some true else errorIsTypeErrorFuel n c

/-! ## Spec-side formulations

`specExitCode` restates §4.1's six-rule precedence list literally as a
first-match-wins table, to be proved equal to `computeErrorCode`.
`GackNode` / `TypeErrorNode` state the per-node (non-recursive) evidence used
to characterise the recursive predicates through `nthCause`. -/

/-- First-match-wins evaluation of a guarded table. -/
def firstMatch : List (Bool × Int) → Int → Int
  | [], d => d
  | (g, v) :: rest, d => if g then v else firstMatch rest d

/-- The spec's precedence list for `computeExitCode`, written as a table:
gack → 20; TypeError → 10; numeric `oclif.exit`; numeric `exitCode`;
present `code` (numeric value, non-numeric forces 1); else the process
exit code if numeric, else 1. -/
def specExitCode (processExitCode : JSField) (e : ErrorLike) : Int :=
  firstMatch
    [(errorIsGack e, 20),
     (errorIsTypeError e, 10),
     (e.base.oclifPresent && e.base.oclifExit.isNum, e.base.oclifExit.numOr 1),
     (e.base.exitCode.isNum, e.base.exitCode.numOr 1),
     (e.base.code.isPresent, if e.base.code.isNum then e.base.code.numOr 1 else 1)]
    (processExitCode.numOr 1)

/-- An error's own message or stack matches the gack pattern. -/
def GackNode (b : ErrorBase) : Prop :=
  gackTest b.message = true ∨ ∃ s, b.stack = some s ∧ gackTest s = true

/-- An error's own fields carry TypeError evidence: it is a `TypeError`
instance, or is named `TypeError`, or mentions `TypeError` in its message or
stack. -/
def TypeErrorNode (b : ErrorBase) : Prop :=
  b.isTypeErrorInstance = true ∨ b.name = some typeErrorChars ∨
    containsSub typeErrorChars b.message = true ∨
    ∃ s, b.stack = some s ∧ containsSub typeErrorChars s = true

/-- All numeric exit-code sources of a field are non-negative (vacuous for
absent or non-numeric fields). -/
def fieldNonneg : JSField → Prop
  | .num n => 0 ≤ n
  | _ => True

/-! ## Concrete inputs used by witnesses and counterexamples -/

/-- An error base with a given message and every optional field empty. -/
def plainBase (msg : List Char) : ErrorBase where
  message := msg
  stack := none
  name := none
  isTypeErrorInstance := false
  oclifPresent := false
  oclifExit := JSField.absent
  exitCode := JSField.absent
  code := JSField.absent
  actions := none
  context := none
  commandName := none
  data := none
  result := none

/-- A message containing a gack signature. -/
def gackMsg : List Char := "ERROR at 123456789-123 (1234567)".data

/-- A gack error that also carries `exitCode = 7`. -/
def gackErr : ErrorLike :=
  ErrorLike.noCause { plainBase gackMsg with exitCode := JSField.num 7 }

/-- A two-deep cause chain whose innermost error is a gack. -/
def chainGackErr : ErrorLike :=
  ErrorLike.withCause (plainBase "outer".data)
    (ErrorLike.withCause (plainBase "middle".data)
      (ErrorLike.noCause (plainBase gackMsg)))

/-- A non-gack error named `TypeError` carrying `exitCode = 7`. -/
def teErr : ErrorLike :=
  ErrorLike.noCause
    { plainBase "boom".data with name := some typeErrorChars, exitCode := JSField.num 7 }

/-- An error that is both a gack and a TypeError. -/
def teGackErr : ErrorLike :=
  ErrorLike.noCause { plainBase gackMsg with name := some typeErrorChars }

/-- A plain error with `oclif.exit = 5` and `exitCode = 7`. -/
def oclifPrecErr : ErrorLike :=
  ErrorLike.noCause
    { plainBase "boom".data with
        oclifPresent := true, oclifExit := JSField.num 5, exitCode := JSField.num 7 }

/-- A plain error whose only exit-code source is `exitCode = -1`. -/
def negExitErr : ErrorLike :=
  ErrorLike.noCause { plainBase "boom".data with exitCode := JSField.num (-1) }

/-- A plain error with every exit-code source absent. -/
def plainErr : ErrorLike := ErrorLike.noCause (plainBase "boom".data)

/-- An error with a `commandName` field but no `context` field. -/
def namedCmdErr : ErrorLike :=
  ErrorLike.noCause { plainBase "x".data with commandName := some "foo".data }

/-- The error `{message: 'x', name: 'Error'}` of the report example. -/
def reportExampleErr : ErrorLike :=
  ErrorLike.noCause { plainBase "x".data with name := some "Error".data }

/-! ## Helper lemmas -/

/-- The per-node gack check equals the spec-side node predicate. -/
theorem gackBase_iff (b : ErrorBase) : gackBase b = true ↔ GackNode b := by
  cases h : b.stack <;> simp [gackBase, GackNode, h]

/-- The per-node TypeError check equals the spec-side node predicate. -/
theorem typeErrorBase_iff (b : ErrorBase) : typeErrorBase b = true ↔ TypeErrorNode b := by
  cases h : b.stack <;> cases hn : b.name <;>
    simp [typeErrorBase, TypeErrorNode, h, hn, or_assoc]

/-- `errorIsGack` holds exactly when some node of the cause chain carries the
gack evidence. -/
theorem errorIsGack_chain (e : ErrorLike) :
    errorIsGack e = true ↔ ∃ n c, nthCause e n = some c ∧ GackNode c.base := by
  induction e with
  | noCause b =>
    constructor
    · intro h
      exact ⟨0, ErrorLike.noCause b, rfl, (gackBase_iff b).mp h⟩
    · rintro ⟨n, c, h1, h2⟩
      cases n with
      | zero =>
        cases Option.some.inj h1
        exact (gackBase_iff b).mpr h2
      | succ n => simp [nthCause] at h1
  | withCause b c ih =>
    constructor
    · intro h
      rcases Bool.or_eq_true_iff.mp h with hb | hc
      · exact ⟨0, ErrorLike.withCause b c, rfl, (gackBase_iff b).mp hb⟩
      · obtain ⟨n, c', h1, h2⟩ := ih.mp hc
        exact ⟨n + 1, c', h1, h2⟩
    · rintro ⟨n, c', h1, h2⟩
      cases n with
      | zero =>
        cases Option.some.inj h1
        exact Bool.or_eq_true_iff.mpr (Or.inl ((gackBase_iff b).mpr h2))
      | succ n =>
        exact Bool.or_eq_true_iff.mpr (Or.inr (ih.mpr ⟨n, c', h1, h2⟩))

/-- `errorIsTypeError` holds exactly when some node of the cause chain carries
TypeError evidence. -/
theorem errorIsTypeError_chain (e : ErrorLike) :
    errorIsTypeError e = true ↔ ∃ n c, nthCause e n = some c ∧ TypeErrorNode c.base := by
  induction e with
  | noCause b =>
    constructor
    · intro h
      exact ⟨0, ErrorLike.noCause b, rfl, (typeErrorBase_iff b).mp h⟩
    · rintro ⟨n, c, h1, h2⟩
      cases n with
      | zero =>
        cases Option.some.inj h1
        exact (typeErrorBase_iff b).mpr h2
      | succ n => simp [nthCause] at h1
  | withCause b c ih =>
    constructor
    · intro h
      rcases Bool.or_eq_true_iff.mp h with hb | hc
      · exact ⟨0, ErrorLike.withCause b c, rfl, (typeErrorBase_iff b).mp hb⟩
      · obtain ⟨n, c', h1, h2⟩ := ih.mp hc
        exact ⟨n + 1, c', h1, h2⟩
    · rintro ⟨n, c', h1, h2⟩
      cases n with
      | zero =>
        cases Option.some.inj h1
        exact Bool.or_eq_true_iff.mpr (Or.inl ((typeErrorBase_iff b).mpr h2))
      | succ n =>
        exact Bool.or_eq_true_iff.mpr (Or.inr (ih.mpr ⟨n, c', h1, h2⟩))

/-- The fallback chain of `computeErrorCode` equals its first-match table. -/
theorem fallbackCode_eq_table (op : Bool) (oe ec cd p : JSField) :
    fallbackCode op oe ec cd p =
      firstMatch
        [(op && oe.isNum, oe.numOr 1),
         (ec.isNum, ec.numOr 1),
         (cd.isPresent, if cd.isNum then cd.numOr 1 else 1)]
        (p.numOr 1) := by
  cases op <;> cases oe <;> cases ec <;> cases cd <;> cases p <;> rfl

/-! ## Claim theorems -/

/-- C1: `computeErrorCode` evaluates its sources in the spec's strict
precedence order with first match winning (gack 20; TypeError 10; numeric
`oclif.exit`; numeric `exitCode`; present `code`, numeric value or forced 1;
process exit code if numeric, else 1), and in particular an error with
`oclif.exit = 5` and `exitCode = 7` returns 5. -/
theorem computeErrorCode_precedence :
    (∀ pcode e, computeErrorCode pcode e = specExitCode pcode e) ∧
    computeErrorCode JSField.absent oclifPrecErr = 5 := by
  refine ⟨fun pcode e => ?_, by decide⟩
  cases hg : errorIsGack e <;> cases ht : errorIsTypeError e <;>
    simp [computeErrorCode, specExitCode, firstMatch, hg, ht, fallbackCode_eq_table]

/-- C3: `errorIsGack` holds exactly when the gack pattern matches the message
or string-valued stack of some error on the cause chain (any finite depth);
and every gack error gets exit code 20 from `computeErrorCode`, regardless of
the other exit-code fields. -/
theorem errorIsGack_spec :
    (∀ e, errorIsGack e = true ↔
      ∃ n c, nthCause e n = some c ∧
        (gackTest c.base.message = true ∨
          ∃ s, c.base.stack = some s ∧ gackTest s = true)) ∧
    (∀ pcode e, errorIsGack e = true → computeErrorCode pcode e = 20) := by
  constructor
  · intro e
    exact errorIsGack_chain e
  · intro pcode e h
    simp [computeErrorCode, h]

/-- Witness for C3 at a depth-two cause chain and at a gack error that also
carries `exitCode = 7`. -/
theorem errorIsGack_spec_witness :
    errorIsGack chainGackErr = true ∧
    computeErrorCode JSField.absent gackErr = 20 := by
  constructor
  · exact (errorIsGack_spec.1 chainGackErr).mpr
      ⟨2, ErrorLike.noCause (plainBase gackMsg), rfl, Or.inl (by decide)⟩
  · exact errorIsGack_spec.2 JSField.absent gackErr (by decide)

/-- C4: `errorIsTypeError` holds exactly when some error on the cause chain is
a `TypeError` instance, is named `TypeError`, or mentions `TypeError` in its
message or stack; such errors get exit code 10 from `computeErrorCode` unless
they are also gacks, in which case gack wins and the code is 20. -/
theorem errorIsTypeError_spec :
    (∀ e, errorIsTypeError e = true ↔
      ∃ n c, nthCause e n = some c ∧ TypeErrorNode c.base) ∧
    (∀ pcode e, errorIsTypeError e = true → errorIsGack e = false →
      computeErrorCode pcode e = 10) ∧
    (∀ pcode e, errorIsTypeError e = true → errorIsGack e = true →
      computeErrorCode pcode e = 20) := by
  refine ⟨errorIsTypeError_chain, ?_, ?_⟩
  · intro pcode e ht hg
    simp [computeErrorCode, ht, hg]
  · intro pcode e ht hg
    simp [computeErrorCode, hg]

/-- Witness for C4 at an error named `TypeError` (code 10) and at an error
that is both a TypeError and a gack (code 20). -/
theorem errorIsTypeError_spec_witness :
    computeErrorCode JSField.absent teErr = 10 ∧
    computeErrorCode JSField.absent teGackErr = 20 := by
  constructor
  · exact errorIsTypeError_spec.2.1 JSField.absent teErr (by decide) (by decide)
  · exact errorIsTypeError_spec.2.2 JSField.absent teGackErr (by decide) (by decide)

/-- C5 counterexample: an error-like input whose only exit-code source is
`exitCode = -1` makes `computeErrorCode` return -1, a negative integer, so the
claim's unconditional non-negativity fails. -/
theorem computeErrorCode_negative_counterexample :
    computeErrorCode JSField.absent negExitErr = -1 ∧
    ¬ 0 ≤ computeErrorCode JSField.absent negExitErr := by decide

/-- C5 amended: `computeErrorCode` is a total function into the integers, and
its result is non-negative whenever every numeric exit-code source on the
error (`oclif.exit`, `exitCode`, `code`) and the numeric process exit code are
non-negative. -/
theorem computeErrorCode_nonneg (pcode : JSField) (e : ErrorLike)
    (h1 : fieldNonneg e.base.oclifExit) (h2 : fieldNonneg e.base.exitCode)
    (h3 : fieldNonneg e.base.code) (h4 : fieldNonneg pcode) :
    0 ≤ computeErrorCode pcode e := by
  unfold computeErrorCode
  split
  · norm_num
  split
  · norm_num
  revert h1 h2 h3 h4
  generalize e.base.oclifPresent = op
  generalize e.base.oclifExit = oe
  generalize e.base.exitCode = ec
  generalize e.base.code = cd
  intro h1 h2 h3 h4
  cases op <;> cases oe <;> cases ec <;> cases cd <;> cases pcode <;>
    simp_all [fallbackCode, fieldNonneg]

/-- Witness for the amended C5 at an error with every exit-code source
absent. -/
theorem computeErrorCode_nonneg_witness :
    fieldNonneg JSField.absent ∧ 0 ≤ computeErrorCode JSField.absent plainErr :=
  ⟨trivial, computeErrorCode_nonneg JSField.absent plainErr trivial trivial trivial trivial⟩

/-- C2: a configured `min` or `max` of 0 is falsy and its bounds check is
skipped: the min check never fires for `min = 0`, the max check never fires
for `max = 0`, any parsed value is accepted when both bounds are 0, and in
particular `validate('5', {unit:'minutes', min:0})` returns a 5-minute
duration instead of throwing. -/
theorem zero_bounds_skipped :
    (∀ v : Int, minViolated (some 0) v = false) ∧
    (∀ v : Int, maxViolated (some 0) v = false) ∧
    (∀ input cfg, cfg.min = some 0 → cfg.max = some 0 →
      ∀ v, parseIntBase10 input = some v →
        validate input cfg = Except.ok (toDuration v cfg.unit)) ∧
    validate "5".data { unit := DurationUnit.minutes, min := some 0 } =
      Except.ok (toDuration 5 DurationUnit.minutes) := by
  refine ⟨fun v => rfl, fun v => rfl, ?_, by decide⟩
  intro input cfg h1 h2 v hv
  simp [validate, hv, h1, h2, minViolated, maxViolated]

/-- Witness for C2: both bounds set to 0, an arbitrary value accepted. -/
theorem zero_bounds_skipped_witness :
    validate "7".data { unit := DurationUnit.seconds, min := some 0, max := some 0 } =
      Except.ok (toDuration 7 DurationUnit.seconds) :=
  zero_bounds_skipped.2.2.1 "7".data
    { unit := DurationUnit.seconds, min := some 0, max := some 0 } rfl rfl 7 (by decide)

/-- C6: `validate` parses a leading base-10 integer prefix (`'5abc'` → 5),
throws `InvalidDuration` when the parse yields not-a-number, throws
`DurationBounds (min, max)` when a truthy bound is violated (min first), and
otherwise returns the parsed value as a duration in the configured unit. -/
theorem validate_spec :
    (∀ input cfg, parseIntBase10 input = none →
      validate input cfg = Except.error DurationError.InvalidDuration) ∧
    (∀ input cfg v m, parseIntBase10 input = some v → cfg.min = some m → m ≠ 0 →
      v < m →
      validate input cfg = Except.error (DurationError.DurationBounds cfg.min cfg.max)) ∧
    (∀ input cfg v m, parseIntBase10 input = some v → minViolated cfg.min v = false →
      cfg.max = some m → m ≠ 0 → m < v →
      validate input cfg = Except.error (DurationError.DurationBounds cfg.min cfg.max)) ∧
    (∀ input cfg v, parseIntBase10 input = some v → minViolated cfg.min v = false →
      maxViolated cfg.max v = false →
      validate input cfg = Except.ok (toDuration v cfg.unit)) ∧
    parseIntBase10 "5abc".data = some 5 ∧
    validate "10".data { unit := DurationUnit.minutes } =
      Except.ok (toDuration 10 DurationUnit.minutes) ∧
    validate "abc".data { unit := DurationUnit.minutes } =
      Except.error DurationError.InvalidDuration ∧
    validate "5".data { unit := DurationUnit.minutes, min := some 10 } =
      Except.error (DurationError.DurationBounds (some 10) none) := by
  refine ⟨?_, ?_, ?_, ?_, by decide, by decide, by decide, by decide⟩
  · intro input cfg h
    simp [validate, h]
  · intro input cfg v m hv hm hne hlt
    simp [validate, hv, minViolated, hm, hne, hlt]
  · intro input cfg v m hv hmin hm hne hlt
    simp [validate, hv, hmin, maxViolated, hm, hne, hlt]
  · intro input cfg v hv hmin hmax
    simp [validate, hv, hmin, hmax]

/-- Witness for C6: one concrete input per validation outcome. -/
theorem validate_spec_witness :
    validate "xyz".data { unit := DurationUnit.hours } =
      Except.error DurationError.InvalidDuration ∧
    validate "3".data { unit := DurationUnit.hours, min := some 5 } =
      Except.error (DurationError.DurationBounds (some 5) none) ∧
    validate "9".data { unit := DurationUnit.hours, max := some 5 } =
      Except.error (DurationError.DurationBounds none (some 5)) ∧
    validate "4".data { unit := DurationUnit.hours, min := some 2, max := some 5 } =
      Except.ok (toDuration 4 DurationUnit.hours) :=
  ⟨validate_spec.1 "xyz".data { unit := DurationUnit.hours } (by decide),
   validate_spec.2.1 "3".data { unit := DurationUnit.hours, min := some 5 } 3 5
     (by decide) rfl (by decide) (by decide),
   validate_spec.2.2.1 "9".data { unit := DurationUnit.hours, max := some 5 } 9 5
     (by decide) rfl rfl (by decide) (by decide),
   validate_spec.2.2.2.1 "4".data
     { unit := DurationUnit.hours, min := some 2, max := some 5 } 4
     (by decide) (by decide) (by decide)⟩

/-- C7 counterexample: for an error with no `context` field but with
`commandName = 'foo'`, the report's `context` is the passed-in parameter
`'deploy'`, not the error's `commandName` `'foo'` as the claim's fallback
chain requires. -/
theorem report_context_counterexample :
    (errorToSfCommandError 3 namedCmdErr "deploy".data).context = some "deploy".data ∧
    (errorToSfCommandError 3 namedCmdErr "deploy".data).commandName = some "foo".data ∧
    some "deploy".data ≠ some "foo".data := by decide

/-- C7 amended: `context` comes from the error's `context` field if present,
else directly from the passed-in `commandName` parameter (the error's own
`commandName` field is not consulted for `context`); the `commandName` field
comes from the error's `commandName` if present, else the parameter; `message`,
`name` (default `'Error'`), `stack`, `status` and `exitCode` (both the code
argument) are always present; `actions`, `data` and `result` are omitted when
absent; and the concrete report example holds. -/
theorem errorToSfCommandError_spec :
    (∀ code e cmd ctx, e.base.context = some ctx →
      (errorToSfCommandError code e cmd).context = some ctx) ∧
    (∀ code e cmd, e.base.context = none →
      (errorToSfCommandError code e cmd).context = some cmd) ∧
    (∀ code e cmd cn, e.base.commandName = some cn →
      (errorToSfCommandError code e cmd).commandName = some cn) ∧
    (∀ code e cmd, e.base.commandName = none →
      (errorToSfCommandError code e cmd).commandName = some cmd) ∧
    (∀ code e cmd,
      (errorToSfCommandError code e cmd).code = some code ∧
      (errorToSfCommandError code e cmd).status = code ∧
      (errorToSfCommandError code e cmd).exitCode = code ∧
      (errorToSfCommandError code e cmd).message = e.base.message ∧
      (errorToSfCommandError code e cmd).stack = e.base.stack) ∧
    (∀ code e cmd, e.base.name = none →
      (errorToSfCommandError code e cmd).name = "Error".data) ∧
    (∀ code e cmd nm, e.base.name = some nm →
      (errorToSfCommandError code e cmd).name = nm) ∧
    (∀ code e cmd, e.base.actions = none →
      (errorToSfCommandError code e cmd).actions = none) ∧
    (∀ code e cmd, e.base.data = none →
      (errorToSfCommandError code e cmd).data = none) ∧
    (∀ code e cmd, e.base.result = none →
      (errorToSfCommandError code e cmd).result = none) ∧
    errorToSfCommandError 3 reportExampleErr "deploy".data =
      { code := some 3, actions := none, context := some "deploy".data,
        commandName := some "deploy".data, data := none, result := none,
        message := "x".data, name := "Error".data, status := 3, stack := none,
        exitCode := 3 } := by
  refine ⟨?_, ?_, ?_, ?_, ?_, ?_, ?_, ?_, ?_, ?_, by decide⟩ <;>
    intro code e cmd <;>
    first
      | (intro x h; simp [errorToSfCommandError, h])
      | (intro h; simp [errorToSfCommandError, h])
      | exact ⟨rfl, rfl, rfl, rfl, rfl⟩

/-- Witness for the amended C7 at the errors used above. -/
theorem errorToSfCommandError_spec_witness :
    (errorToSfCommandError 3 namedCmdErr "deploy".data).context = some "deploy".data ∧
    (errorToSfCommandError 3 namedCmdErr "deploy".data).commandName = some "foo".data ∧
    (errorToSfCommandError 3 reportExampleErr "deploy".data).actions = none :=
  ⟨errorToSfCommandError_spec.2.1 3 namedCmdErr "deploy".data rfl,
   errorToSfCommandError_spec.2.2.1 3 namedCmdErr "deploy".data "foo".data rfl,
   errorToSfCommandError_spec.2.2.2.2.2.2.2.1 3 reportExampleErr "deploy".data rfl⟩

/-- C8 counterexample: a set `defaultValue` of 0 is falsy, so the ternary in
the default callback yields nothing rather than a zero-duration value. -/
theorem defaultFor_zero_counterexample :
    defaultFor { unit := DurationUnit.seconds, defaultValue := some 0 } = none ∧
    (none : Option Duration) ≠ some (toDuration 0 DurationUnit.seconds) := by decide

/-- C8 amended: `defaultFor` returns a duration built from `defaultValue` in
the configured unit whenever `defaultValue` is set and truthy (nonzero);
it returns nothing when `defaultValue` is unset, and also when it is set to
the falsy value 0. -/
theorem defaultFor_spec :
    (∀ cfg d, cfg.defaultValue = some d → d ≠ 0 →
      defaultFor cfg = some (toDuration d cfg.unit)) ∧
    (∀ cfg, cfg.defaultValue = none → defaultFor cfg = none) ∧
    (∀ cfg, cfg.defaultValue = some 0 → defaultFor cfg = none) ∧
    defaultFor { unit := DurationUnit.seconds } = none ∧
    defaultFor { unit := DurationUnit.seconds, defaultValue := some 30 } =
      some (toDuration 30 DurationUnit.seconds) := by
  refine ⟨?_, ?_, ?_, by decide, by decide⟩
  · intro cfg d h hne
    simp [defaultFor, h, hne]
  · intro cfg h
    simp [defaultFor, h]
  · intro cfg h
    simp [defaultFor, h]

/-- Witness for the amended C8 at the spec's two example configurations. -/
theorem defaultFor_spec_witness :
    defaultFor { unit := DurationUnit.seconds, defaultValue := some 30 } =
      some (toDuration 30 DurationUnit.seconds) ∧
    defaultFor { unit := DurationUnit.seconds } = none :=
  ⟨defaultFor_spec.1 { unit := DurationUnit.seconds, defaultValue := some 30 } 30
      rfl (by decide),
   defaultFor_spec.2.1 { unit := DurationUnit.seconds } rfl⟩

/-- C9: on every cause chain of the inductive error model (finite and acyclic
by construction) the recursive classifiers terminate, with recursion depth
bounded by the chain length: with any fuel exceeding the chain depth the
fuelled versions complete and agree with the recursive ones, while fuel 0
never completes — the recursion has no guard beyond the chain itself. -/
theorem classification_terminates :
    (∀ e fuel, causeDepth e < fuel →
      errorIsGackFuel fuel e = some (errorIsGack e)) ∧
    (∀ e fuel, causeDepth e < fuel →
      errorIsTypeErrorFuel fuel e = some (errorIsTypeError e)) ∧
    (∀ e, errorIsGackFuel 0 e = none) ∧
    (∀ e, errorIsTypeErrorFuel 0 e = none) := by
  refine ⟨?_, ?_, fun e => rfl, fun e => rfl⟩
  · intro e
    induction e with
    | noCause b =>
      intro fuel h
      match fuel, h with
      | n + 1, _ => rfl
    | withCause b c ih =>
      intro fuel h
      match fuel, h with
      | n + 1, h =>
        have hc : causeDepth c < n := Nat.lt_of_succ_lt_succ h
        cases hb : gackBase b with
        | true => simp [errorIsGackFuel, errorIsGack, hb]
        | false => simp [errorIsGackFuel, errorIsGack, hb, ih n hc]
  · intro e
    induction e with
    | noCause b =>
      intro fuel h
      match fuel, h with
      | n + 1, _ => rfl
    | withCause b c ih =>
      intro fuel h
      match fuel, h with
      | n + 1, h =>
        have hc : causeDepth c < n := Nat.lt_of_succ_lt_succ h
        cases hb : typeErrorBase b with
        | true => simp [errorIsTypeErrorFuel, errorIsTypeError, hb]
        | false => simp [errorIsTypeErrorFuel, errorIsTypeError, hb, ih n hc]

/-- Witness for C9 at the depth-two chain with fuel 3. -/
theorem classification_terminates_witness :
    causeDepth chainGackErr < 3 ∧
    errorIsGackFuel 3 chainGackErr = some (errorIsGack chainGackErr) ∧
    errorIsTypeErrorFuel 3 chainGackErr = some (errorIsTypeError chainGackErr) :=
  ⟨by decide,
   classification_terminates.1 chainGackErr 3 (by decide),
   classification_terminates.2.1 chainGackErr 3 (by decide)⟩

/-- C10 counterexample: with `min` absent but `max = -10` (truthy), the raw
input `'-5'` parses to -5 and is rejected by the max check, so negative
durations are not universally accepted under min-absent configurations. -/
theorem negative_input_counterexample :
    validate "-5".data
        { unit := DurationUnit.minutes, defaultValue := none, min := none,
          max := some (-10) } =
      Except.error (DurationError.DurationBounds none (some (-10))) ∧
    validate "-5".data
        { unit := DurationUnit.minutes, defaultValue := none, min := none,
          max := some (-10) } ≠
      Except.ok (toDuration (-5) DurationUnit.minutes) := by decide

/-- C10 amended: when `min` is absent or 0, the min check never rejects any
parsed value, so a negative input is accepted whenever the max check also
passes — in particular whenever `max` is absent, 0, or non-negative — and
yields a negative duration in the configured unit; only a truthy negative
`max` can reject it. -/
theorem negative_inputs_accepted :
    (∀ input cfg v, parseIntBase10 input = some v →
      (cfg.min = none ∨ cfg.min = some 0) →
      maxViolated cfg.max v = false →
      validate input cfg = Except.ok (toDuration v cfg.unit)) ∧
    (∀ m v : Int, 0 ≤ m → v < 0 → maxViolated (some m) v = false) ∧
    parseIntBase10 "-5".data = some (-5) ∧
    validate "-5".data { unit := DurationUnit.minutes } =
      Except.ok (toDuration (-5) DurationUnit.minutes) := by
  refine ⟨?_, ?_, by decide, by decide⟩
  · intro input cfg v hv hmin hmax
    have h : minViolated cfg.min v = false := by
      rcases hmin with h | h <;> simp [minViolated, h]
    simp [validate, hv, h, hmax]
  · intro m v hm hv
    simp only [maxViolated, Bool.and_eq_false_iff]
    right
    simp only [decide_eq_false_iff_not, not_lt]
    omega

/-- Witness for the amended C10: `'-5'` accepted under an absent `min` and a
non-negative truthy `max`. -/
theorem negative_inputs_accepted_witness :
    maxViolated (some 60) (-5) = false ∧
    validate "-5".data { unit := DurationUnit.minutes, max := some 60 } =
      Except.ok (toDuration (-5) DurationUnit.minutes) :=
  ⟨negative_inputs_accepted.2.1 60 (-5) (by decide) (by decide),
   negative_inputs_accepted.1 "-5".data { unit := DurationUnit.minutes, max := some 60 }
     (-5) (by decide) (Or.inl rfl) (by decide)⟩

end ProjectUtils

